import Mathlib

/-!
Shallow embedding of `app.py` (tonykipkemboi/streamlitTV): a Streamlit
dashboard that fetches YouTube search results, flattens them with pandas,
derives two URL columns, and offers a CSV download.

The pandas layer is modelled explicitly: a `DataFrame` is a list of column
names plus row-major cells, where a cell of `none` is pandas `NaN` (a value
missing from the flattened JSON).  Each raw API item is modelled already
flattened, as the association list of dotted key paths that
`pd.json_normalize` produces for it (e.g. `"id.videoId"`, `"snippet.title"`).
Python exceptions (KeyError from indexing, TypeError from `str + NaN`,
requests exceptions, JSONDecodeError) are modelled with `Except String`.
-/

set_option autoImplicit false

namespace StreamlitTV

/-- One raw API item, pre-flattened to the dotted key paths of
`pd.json_normalize` (e.g. `("id.videoId", "x")`, `("snippet.title", "t")`). -/
abbrev Item := List (String × String)

/-- Keys of one flattened item. -/
def keys (it : Item) : List String := it.map Prod.fst

/-- First value stored under key `c` in a flattened item, if any. -/
def lookupKey (c : String) (it : Item) : Option String :=
  match it with
  | [] => none
  | (k, v) :: rest => if k = c then some v else lookupKey c rest

/-- A pandas DataFrame: ordered column labels and row-major cells.
A cell of `none` is pandas `NaN`. -/
structure DataFrame where
  cols : List String
  rows : List (List (Option String))
deriving DecidableEq, Repr

/-- Index of the first column named `c` (pandas label lookup). -/
def idxOfStr : List String → String → Option Nat
  | [], _ => none
  | x :: xs, c => if x = c then some 0 else (idxOfStr xs c).map (· + 1)

/-- Cell of row `i`, column `c`; `none` when the column or row is absent or
the cell is `NaN`. -/
def cellAt (df : DataFrame) (i : Nat) (c : String) : Option String :=
  match idxOfStr df.cols c, df.rows[i]? with
  | some j, some r => r[j]?.getD none
  | _, _ => none

/-- Accumulate a key at the end unless already present (column-union order of
`pd.json_normalize`: first appearance wins). -/
def insertKey (acc : List String) (k : String) : List String :=
  if k ∈ acc then acc else acc ++ [k]

/-- Ordered union of all keys appearing in the items, in order of first
appearance — the column order `pd.json_normalize` produces. -/
def unionKeys (items : List Item) : List String :=
  items.foldl (fun acc it => (keys it).foldl insertKey acc) []

/-- `pd.json_normalize(items)`: one row per item, columns the ordered union of
all flattened keys, missing entries becoming `NaN`. -/
def json_normalize (items : List Item) : DataFrame :=
  let cols := unionKeys items
  { cols := cols
    rows := items.map (fun it => cols.map (fun c => lookupKey c it)) }

/-- The fixed `df.rename(columns={...})` mapping of `data_to_df`. -/
def renameMap (c : String) : String :=
  if c = "id.videoId" then "video_id"
  else if c = "snippet.publishedAt" then "publish_date"
  else if c = "snippet.channelId" then "channel_id"
  else if c = "snippet.title" then "title"
  else if c = "snippet.description" then "description"
  else if c = "snippet.channelTitle" then "channel_name"
  else c

/-- `df.rename(columns=...)`: relabels columns, leaves every cell in place. -/
def rename (f : String → String) (df : DataFrame) : DataFrame :=
  { cols := df.cols.map f, rows := df.rows }

/-- `df.assign(new=lambda x: pre + x[src])`.  Raises `KeyError` when the `src`
column is absent, `TypeError` when any `src` cell is `NaN` (Python
`str + float`); otherwise appends (or replaces) column `new` with the
concatenated values. -/
def assignConcat (df : DataFrame) (newCol srcCol pre : String) :
    Except String DataFrame :=
  match idxOfStr df.cols srcCol with
  | none => .error ("KeyError: " ++ srcCol)
  | some j =>
    if df.rows.all (fun r => (r[j]?.getD none).isSome) then
      match idxOfStr df.cols newCol with
      | some k =>
        .ok { cols := df.cols
              rows := df.rows.map (fun r =>
                r.set k ((r[j]?.getD none).map (fun s => pre ++ s))) }
      | none =>
        .ok { cols := df.cols ++ [newCol]
              rows := df.rows.map (fun r =>
                r ++ [(r[j]?.getD none).map (fun s => pre ++ s)]) }
    else .error ("TypeError: NaN in column " ++ srcCol)

/-- `df[names]` column projection; `KeyError` when any label is missing. -/
def select (df : DataFrame) (names : List String) :
    Except String DataFrame :=
  if names.all (fun c => (idxOfStr df.cols c).isSome) then
    .ok { cols := names
          rows := df.rows.map (fun r =>
            names.map (fun c =>
              match idxOfStr df.cols c with
              | some j => r[j]?.getD none
              | none => none)) }
  else .error "KeyError: column selection"

/-- The raw parsed JSON body handed to `data_to_df`: `none` models a dict
without an `items` key (so `data['items']` raises `KeyError`), `some items`
a dict whose `items` entry is the given sequence. -/
abbrev RawData := Option (List Item)

/-- The six columns of the export projection (`csv` in `data_to_df`). -/
def exportCols : List String :=
  ["publish_date", "video_url", "title", "description", "channel_name",
   "channel_url"]

def videoUrlBase : String := "https://www.youtube.com/watch?v="

def channelUrlBase : String := "https://www.youtube.com/channel/"

/-- `data_to_df`: flatten `data['items']`, rename the fixed columns, derive
`video_url` and `channel_url` by string concatenation, and project the six
export columns.  Returns the pair `(df, csv)` or the first raised error. -/
def data_to_df (data : RawData) : Except String (DataFrame × DataFrame) :=
  match data with
  | none => .error "KeyError: items"
  | some items =>
    match assignConcat (rename renameMap (json_normalize items))
        "video_url" "video_id" videoUrlBase with
    | .error e => .error e
    | .ok df2 =>
      match assignConcat df2 "channel_url" "channel_id" channelUrlBase with
      | .error e => .error e
      | .ok df3 =>
        match select df3 exportCols with
        | .error e => .error e
        | .ok csv => .ok (df3, csv)

/-! ### CSV rendering (`to_csv`)

`df.to_csv()` is called with default arguments, so pandas writes the row
index as an unnamed leading column: the header line starts with an empty
field, and each data line starts with the row's position.  `NaN` cells are
written empty; fields containing the delimiter, the quote character or a
line break are quoted with doubled inner quotes (QUOTE_MINIMAL). -/

/-- Double every quote character (CSV quote escaping). -/
def escapeQuotes : List Char → List Char
  | [] => []
  | ch :: rest =>
    if ch = '"' then '"' :: '"' :: escapeQuotes rest
    else ch :: escapeQuotes rest

/-- Render one CSV field with pandas' minimal quoting: a field containing the
delimiter, a quote or a line break is wrapped in quotes, inner quotes
doubled. -/
def csvField (s : String) : String :=
  if s.data.any (fun ch =>
      ch == ',' || ch == '"' || ch == '\n' || ch == '\r')
  then "\"" ++ String.mk (escapeQuotes s.data) ++ "\"" else s

/-- Render one cell; `NaN` is written as the empty field. -/
def csvCell : Option String → String
  | none => ""
  | some s => csvField s

/-- One CSV data line: the row index followed by the row's cells. -/
def csvLine (p : Nat × List (Option String)) : String :=
  String.intercalate "," (toString p.1 :: p.2.map csvCell)

/-- `df.to_csv()` with default arguments (index included, `\n` terminator). -/
def df_to_csv (df : DataFrame) : String :=
  String.intercalate "\n"
    (String.intercalate "," ("" :: df.cols.map csvField)
      :: df.rows.enum.map csvLine) ++ "\n"

/-- `to_csv` from `app.py`: the UTF-8 bytes of `df.to_csv()`
(`.encode('utf-8')`). -/
def to_csv (df : DataFrame) : List UInt8 :=
  (df_to_csv df).toUTF8.toList

/-- The `st.download_button` payload of the Data tab. -/
structure Download where
  data : List UInt8
  file_name : String
  mime : String
deriving DecidableEq, Repr

/-- The download action of `__main__`: `to_csv(csv)` under the literal
filename and MIME type passed to `st.download_button`. -/
def download_button (csv : DataFrame) : Download :=
  { data := to_csv csv
    file_name := "content_data.csv"
    mime := "text/csv" }

/-! ### Fetcher (`get_videos`) and the submission pipeline -/

/-- One outbound HTTP request: URL plus query parameters in the order the
Python dict literal inserts them. -/
structure Request where
  url : String
  params : List (String × String)
deriving DecidableEq, Repr

/-- The request `get_videos` issues: a single GET to the search endpoint with
exactly the eight `PARAMS` entries, in dict-literal order. -/
def get_videos_request (apiKey query : String) (maxResults : Int)
    (order published_after published_before : String) : Request :=
  { url := "https://www.googleapis.com/youtube/v3/search"
    params :=
      [("key", apiKey), ("q", query), ("part", "snippet"), ("type", "video"),
       ("maxResults", toString maxResults), ("order", order),
       ("publishedAfter", published_after),
       ("publishedBefore", published_before)] }

/-- What the network returns for the single `requests.get` call:
`netFail` models a raised requests exception (no response), and `resp`
carries the HTTP status and the body — `none` a body `response.json()`
cannot parse (raising `JSONDecodeError`), `some d` a parsed JSON dict. -/
inductive HttpOutcome where
  | netFail
  | resp (status : Nat) (body : Option RawData)
deriving DecidableEq, Repr

/-- What `get_videos` hands back for a given network outcome: the two raised
exceptions propagate as errors; otherwise `response.json()` is returned
unconditionally — the status code is never inspected. -/
def get_videos_result (o : HttpOutcome) : Except String RawData :=
  match o with
  | .netFail => .error "requests.ConnectionError"
  | .resp _ none => .error "JSONDecodeError"
  | .resp _ (some d) => .ok d

/-- The fetch-then-transform prefix of the `if submitted:` block: a raised
fetch exception propagates (the transform never runs); otherwise the parsed
body is passed straight to `data_to_df`. -/
def run_pipeline (o : HttpOutcome) : Except String (DataFrame × DataFrame) :=
  match get_videos_result o with
  | .error e => .error e
  | .ok d => data_to_df d

/-! ### Form input (`st.sidebar` widgets) -/

/-- A calendar date as returned by `st.date_input`. -/
structure Date where
  year : Nat
  month : Nat
  day : Nat
deriving DecidableEq, Repr

/-- Zero-padded two-digit rendering (Python `date.isoformat` fields). -/
def pad2 (n : Nat) : String :=
  if n < 10 then "0" ++ toString n else toString n

/-- Zero-padded four-digit year rendering. -/
def pad4 (n : Nat) : String :=
  if n < 10 then "000" ++ toString n
  else if n < 100 then "00" ++ toString n
  else if n < 1000 then "0" ++ toString n
  else toString n

/-- Python `date.isoformat()`: `YYYY-MM-DD`. -/
def Date.isoformat (d : Date) : String :=
  pad4 d.year ++ "-" ++ pad2 d.month ++ "-" ++ pad2 d.day

/-- `st.number_input(min_value, max_value, value)`: the Streamlit widget
never yields a value outside `[min_value, max_value]` — out-of-range entry
is clamped/rejected by the control, and with no entry the default is used. -/
def number_input (minVal maxVal default : Int) (user : Option Int) : Int :=
  match user with
  | none => default
  | some v => max minVal (min maxVal v)

/-- The options of the `Order by video` selectbox, in source order. -/
def orderOptions : List String :=
  ["date", "rating", "relevance", "title", "videoCount", "viewCount"]

/-- `st.selectbox`: yields the chosen option; the widget cannot yield
anything outside the list (the first option is the default). -/
def selectbox (options : List String) (choice : Nat) : String :=
  match options[choice]? with
  | some x => x
  | none => options.headD ""

/-- One submission of the sidebar form. -/
structure FormInput where
  queryText : String
  maxResultsEntry : Option Int
  orderChoice : Nat
  startDate : Date
  endDate : Date
deriving DecidableEq, Repr

/-- The value of the `Max Results` widget (`value=50, min_value=5,
max_value=50`). -/
def formMaxResults (f : FormInput) : Int :=
  number_input 5 50 50 f.maxResultsEntry

/-- The value of the `Order by video` selectbox. -/
def formOrder (f : FormInput) : String :=
  selectbox orderOptions f.orderChoice

/-- The ISO instant sent as `publishedAfter` (start of day). -/
def startIso (f : FormInput) : String :=
  f.startDate.isoformat ++ "T00:00:00Z"

/-- The ISO instant sent as `publishedBefore` (end of day). -/
def endIso (f : FormInput) : String :=
  f.endDate.isoformat ++ "T23:59:59Z"

/-- The request built from one form submission, exactly as `__main__` calls
`get_videos`. -/
def submit_request (apiKey : String) (f : FormInput) : Request :=
  get_videos_request apiKey f.queryText (formMaxResults f) (formOrder f)
    (startIso f) (endIso f)

/-- All outbound requests of one submission: `__main__` calls `get_videos`
once and `get_videos` performs a single `requests.get` — no pagination, no
retries. -/
def requests_issued (apiKey : String) (f : FormInput) : List Request :=
  [submit_request apiKey f]

/-! ### Concrete sample data

Sample inputs shaped like YouTube search responses, with the transformer
outputs they evaluate to, used to instantiate the general theorems. -/

/-- Row/column well-formedness: every row has one cell per column. -/
def wfDF (df : DataFrame) : Prop :=
  ∀ r ∈ df.rows, r.length = df.cols.length

/-- Two fully populated search items, as flattened by `pd.json_normalize`. -/
def demoItems : List Item :=
  [[("kind", "youtube#searchResult"), ("etag", "e1"),
    ("id.kind", "youtube#video"), ("id.videoId", "abc"),
    ("snippet.publishedAt", "2023-05-01T10:00:00Z"),
    ("snippet.channelId", "ch1"), ("snippet.title", "t1"),
    ("snippet.description", "d1"), ("snippet.channelTitle", "cn1")],
   [("kind", "youtube#searchResult"), ("etag", "e2"),
    ("id.kind", "youtube#video"), ("id.videoId", "xyz"),
    ("snippet.publishedAt", "2023-06-02T11:00:00Z"),
    ("snippet.channelId", "ch2"), ("snippet.title", "t2"),
    ("snippet.description", "d2"), ("snippet.channelTitle", "cn2")]]

/-- The full table `data_to_df` computes from `demoItems`. -/
def demoDf : DataFrame :=
  { cols := ["kind", "etag", "id.kind", "video_id", "publish_date",
             "channel_id", "title", "description", "channel_name",
             "video_url", "channel_url"]
    rows := [[some "youtube#searchResult", some "e1", some "youtube#video",
              some "abc", some "2023-05-01T10:00:00Z", some "ch1",
              some "t1", some "d1", some "cn1",
              some "https://www.youtube.com/watch?v=abc",
              some "https://www.youtube.com/channel/ch1"],
             [some "youtube#searchResult", some "e2", some "youtube#video",
              some "xyz", some "2023-06-02T11:00:00Z", some "ch2",
              some "t2", some "d2", some "cn2",
              some "https://www.youtube.com/watch?v=xyz",
              some "https://www.youtube.com/channel/ch2"]] }

/-- The export projection `data_to_df` computes from `demoItems`. -/
def demoCsv : DataFrame :=
  { cols := exportCols
    rows := [[some "2023-05-01T10:00:00Z",
              some "https://www.youtube.com/watch?v=abc", some "t1",
              some "d1", some "cn1",
              some "https://www.youtube.com/channel/ch1"],
             [some "2023-06-02T11:00:00Z",
              some "https://www.youtube.com/watch?v=xyz", some "t2",
              some "d2", some "cn2",
              some "https://www.youtube.com/channel/ch2"]] }

/-- Two items of which the second lacks `snippet.description`: flattening
fills the gap with `NaN` instead of failing. -/
def c4BadItems : List Item :=
  [[("id.videoId", "abc"), ("snippet.publishedAt", "p1"),
    ("snippet.channelId", "ch1"), ("snippet.title", "t1"),
    ("snippet.description", "d1"), ("snippet.channelTitle", "cn1")],
   [("id.videoId", "xyz"), ("snippet.publishedAt", "p2"),
    ("snippet.channelId", "ch2"), ("snippet.title", "t2"),
    ("snippet.channelTitle", "cn2")]]

/-- The full table `data_to_df` computes from `c4BadItems`. -/
def c4BadDf : DataFrame :=
  { cols := ["video_id", "publish_date", "channel_id", "title",
             "description", "channel_name", "video_url", "channel_url"]
    rows := [[some "abc", some "p1", some "ch1", some "t1", some "d1",
              some "cn1", some "https://www.youtube.com/watch?v=abc",
              some "https://www.youtube.com/channel/ch1"],
             [some "xyz", some "p2", some "ch2", some "t2", none,
              some "cn2", some "https://www.youtube.com/watch?v=xyz",
              some "https://www.youtube.com/channel/ch2"]] }

/-- The export projection `data_to_df` computes from `c4BadItems`; the
second row carries a `NaN` description. -/
def c4BadCsv : DataFrame :=
  { cols := exportCols
    rows := [[some "p1", some "https://www.youtube.com/watch?v=abc",
              some "t1", some "d1", some "cn1",
              some "https://www.youtube.com/channel/ch1"],
             [some "p2", some "https://www.youtube.com/watch?v=xyz",
              some "t2", none, some "cn2",
              some "https://www.youtube.com/channel/ch2"]] }

/-- One fully populated item, for exercising the CSV download. -/
def c5Items : List Item :=
  [[("id.videoId", "abc"), ("snippet.publishedAt", "p1"),
    ("snippet.channelId", "ch1"), ("snippet.title", "t1"),
    ("snippet.description", "d1"), ("snippet.channelTitle", "cn1")]]

/-- The full table `data_to_df` computes from `c5Items`. -/
def c5Df : DataFrame :=
  { cols := ["video_id", "publish_date", "channel_id", "title",
             "description", "channel_name", "video_url", "channel_url"]
    rows := [[some "abc", some "p1", some "ch1", some "t1", some "d1",
              some "cn1", some "https://www.youtube.com/watch?v=abc",
              some "https://www.youtube.com/channel/ch1"]] }

/-- The export projection `data_to_df` computes from `c5Items`. -/
def c5Csv : DataFrame :=
  { cols := exportCols
    rows := [[some "p1", some "https://www.youtube.com/watch?v=abc",
              some "t1", some "d1", some "cn1",
              some "https://www.youtube.com/channel/ch1"]] }

/-! ### Basic lemmas about the pandas model -/

theorem idxOfStr_some {xs : List String} {c : String} {j : Nat}
    (h : idxOfStr xs c = some j) : xs[j]? = some c := by
  induction xs generalizing j with
  | nil => simp [idxOfStr] at h
  | cons x xs ih =>
    by_cases hx : x = c
    · simp [idxOfStr, hx] at h
      subst h
      simp [hx]
    · simp only [idxOfStr, if_neg hx, Option.map_eq_some'] at h
      obtain ⟨j', hj', rfl⟩ := h
      simpa using ih hj'

theorem idxOfStr_lt {xs : List String} {c : String} {j : Nat}
    (h : idxOfStr xs c = some j) : j < xs.length := by
  have := idxOfStr_some h
  by_contra hle
  rw [List.getElem?_eq_none_iff.2 (Nat.le_of_not_lt hle)] at this
  exact Option.noConfusion this

theorem idxOfStr_of_mem {xs : List String} {c : String} (h : c ∈ xs) :
    ∃ j, idxOfStr xs c = some j := by
  induction xs with
  | nil => simp at h
  | cons x xs ih =>
    by_cases hx : x = c
    · exact ⟨0, by simp [idxOfStr, hx]⟩
    · have hc : c ∈ xs := by
        rcases List.mem_cons.1 h with h1 | h1
        · exact absurd h1.symm hx
        · exact h1
      obtain ⟨j, hj⟩ := ih hc
      exact ⟨j + 1, by simp [idxOfStr, hx, hj]⟩

theorem mem_of_idxOfStr_some {xs : List String} {c : String} {j : Nat}
    (h : idxOfStr xs c = some j) : c ∈ xs :=
  List.getElem?_mem (idxOfStr_some h)

theorem idxOfStr_append_left {xs ys : List String} {c : String} {j : Nat}
    (h : idxOfStr xs c = some j) : idxOfStr (xs ++ ys) c = some j := by
  induction xs generalizing j with
  | nil => simp [idxOfStr] at h
  | cons x xs ih =>
    by_cases hx : x = c
    · simp [idxOfStr, hx] at h ⊢
      exact h
    · simp only [idxOfStr, if_neg hx, Option.map_eq_some'] at h
      obtain ⟨j', hj', rfl⟩ := h
      calc idxOfStr (x :: xs ++ ys) c
          = (idxOfStr (xs ++ ys) c).map (· + 1) := by
            simp [List.cons_append, idxOfStr, if_neg hx]
        _ = some (j' + 1) := by rw [ih hj']; rfl

theorem idxOfStr_append_none {xs ys : List String} {c : String}
    (h : idxOfStr xs c = none) :
    idxOfStr (xs ++ ys) c = (idxOfStr ys c).map (· + xs.length) := by
  induction xs with
  | nil =>
    cases hy : idxOfStr ys c <;> simp [hy]
  | cons x xs ih =>
    by_cases hx : x = c
    · simp [idxOfStr, hx] at h
    · simp only [idxOfStr, if_neg hx, Option.map_eq_none'] at h
      calc idxOfStr (x :: xs ++ ys) c
          = (idxOfStr (xs ++ ys) c).map (· + 1) := by
            simp [List.cons_append, idxOfStr, if_neg hx]
        _ = ((idxOfStr ys c).map (· + xs.length)).map (· + 1) := by
            rw [ih h]
        _ = (idxOfStr ys c).map (· + (x :: xs).length) := by
            cases hy : idxOfStr ys c <;>
              simp [hy, Nat.add_assoc, Nat.add_comm 1]

theorem idxOfStr_eq_none_of_not_mem {xs : List String} {c : String}
    (h : c ∉ xs) : idxOfStr xs c = none := by
  cases hj : idxOfStr xs c with
  | none => rfl
  | some j => exact absurd (mem_of_idxOfStr_some hj) h

theorem lookupKey_isSome_mem {c : String} {it : Item} {v : String}
    (h : lookupKey c it = some v) : c ∈ keys it := by
  induction it with
  | nil => simp [lookupKey] at h
  | cons p rest ih =>
    obtain ⟨k, w⟩ := p
    by_cases hk : k = c
    · simp [keys, hk]
    · simp only [lookupKey, if_neg hk] at h
      simpa [keys] using Or.inr (by simpa [keys] using ih h)

theorem mem_foldl_insertKey {c : String} (ks : List String) :
    ∀ acc : List String, c ∈ ks.foldl insertKey acc ↔ c ∈ acc ∨ c ∈ ks := by
  induction ks with
  | nil => intro acc; simp
  | cons k ks ih =>
    intro acc
    have hins : c ∈ insertKey acc k ↔ c ∈ acc ∨ c = k := by
      unfold insertKey
      split
      · rename_i hmem
        constructor
        · exact Or.inl
        · rintro (h | rfl)
          · exact h
          · exact hmem
      · simp [or_comm]
    simp only [List.foldl_cons, ih, hins, List.mem_cons]
    tauto

theorem mem_unionKeys {c : String} {items : List Item} :
    c ∈ unionKeys items ↔ ∃ it ∈ items, c ∈ keys it := by
  have main : ∀ (its : List Item) (acc : List String),
      c ∈ its.foldl (fun acc it => (keys it).foldl insertKey acc) acc ↔
        c ∈ acc ∨ ∃ it ∈ its, c ∈ keys it := by
    intro its
    induction its with
    | nil => intro acc; simp
    | cons it its ih =>
      intro acc
      simp only [List.foldl_cons, ih, mem_foldl_insertKey, List.mem_cons]
      constructor
      · rintro ((h | h) | ⟨u, hu, hc⟩)
        · exact Or.inl h
        · exact Or.inr ⟨it, Or.inl rfl, h⟩
        · exact Or.inr ⟨u, Or.inr hu, hc⟩
      · rintro (h | ⟨u, (rfl | hu), hc⟩)
        · exact Or.inl (Or.inl h)
        · exact Or.inl (Or.inr hc)
        · exact Or.inr ⟨u, hu, hc⟩
  simpa using main items []

theorem wf_json_normalize (items : List Item) : wfDF (json_normalize items) := by
  intro r hr
  simp only [json_normalize, List.mem_map] at hr
  obtain ⟨it, _, rfl⟩ := hr
  simp [json_normalize]

theorem json_normalize_rows_length (items : List Item) :
    (json_normalize items).rows.length = items.length := by
  simp [json_normalize]

/-- Each row of `pd.json_normalize` is computed from the item at the same
position alone: cell `(i, c)` is the value item `i` stores under key `c`. -/
theorem cellAt_json_normalize (items : List Item) (i : Nat) (c : String) :
    cellAt (json_normalize items) i c = items[i]?.bind (lookupKey c) := by
  cases hj : idxOfStr (unionKeys items) c with
  | none =>
    have hnm : c ∉ unionKeys items := by
      intro hmem
      obtain ⟨j, hj2⟩ := idxOfStr_of_mem hmem
      rw [hj] at hj2
      exact Option.noConfusion hj2
    cases hi : items[i]? with
    | none => simp [cellAt, hj, hi, json_normalize]
    | some it =>
      have hit : it ∈ items := List.getElem?_mem hi
      have hlk : lookupKey c it = none := by
        cases hv : lookupKey c it with
        | none => rfl
        | some v =>
          exact absurd (mem_unionKeys.2 ⟨it, hit, lookupKey_isSome_mem hv⟩)
            hnm
      simp [cellAt, hj, hi, hlk, json_normalize]
  | some j =>
    have hcol : (unionKeys items)[j]? = some c := idxOfStr_some hj
    cases hi : items[i]? with
    | none => simp [cellAt, hj, hi, json_normalize]
    | some it =>
      have hcell : ((unionKeys items).map (fun c => lookupKey c it))[j]? =
          some (lookupKey c it) := by
        rw [List.getElem?_map, hcol]
        rfl
      simp [cellAt, hj, hi, hcell, json_normalize]

theorem rename_rows (f : String → String) (df : DataFrame) :
    (rename f df).rows = df.rows := rfl

theorem wf_rename {df : DataFrame} (f : String → String) (h : wfDF df) :
    wfDF (rename f df) := by
  intro r hr
  simp only [rename, List.length_map]
  exact h r hr

/-- Case analysis of a successful `assignConcat`. -/
theorem assignConcat_cases {df out : DataFrame} {newCol srcCol pre : String}
    (h : assignConcat df newCol srcCol pre = .ok out) :
    ∃ j, idxOfStr df.cols srcCol = some j ∧
      df.rows.all (fun r => (r[j]?.getD none).isSome) = true ∧
      ((∃ k, idxOfStr df.cols newCol = some k ∧
          out = ⟨df.cols, df.rows.map (fun r =>
            r.set k ((r[j]?.getD none).map (fun s => pre ++ s)))⟩) ∨
        (idxOfStr df.cols newCol = none ∧
          out = ⟨df.cols ++ [newCol], df.rows.map (fun r =>
            r ++ [(r[j]?.getD none).map (fun s => pre ++ s)])⟩)) := by
  unfold assignConcat at h
  split at h
  · exact absurd h (by simp)
  · rename_i j hj
    split at h
    · rename_i hall
      split at h
      · rename_i k hk
        exact ⟨j, hj, hall, Or.inl ⟨k, hk, (Except.ok.inj h).symm⟩⟩
      · rename_i hk
        exact ⟨j, hj, hall, Or.inr ⟨hk, (Except.ok.inj h).symm⟩⟩
    · exact absurd h (by simp)

theorem assignConcat_rows_length {df out : DataFrame}
    {newCol srcCol pre : String}
    (h : assignConcat df newCol srcCol pre = .ok out) :
    out.rows.length = df.rows.length := by
  obtain ⟨j, hj, hall, hcase⟩ := assignConcat_cases h
  rcases hcase with ⟨k, hk, rfl⟩ | ⟨hk, rfl⟩ <;> simp

theorem assignConcat_wf {df out : DataFrame} {newCol srcCol pre : String}
    (hwf : wfDF df) (h : assignConcat df newCol srcCol pre = .ok out) :
    wfDF out := by
  obtain ⟨j, hj, hall, hcase⟩ := assignConcat_cases h
  rcases hcase with ⟨k, hk, rfl⟩ | ⟨hk, rfl⟩ <;>
    intro r hr <;> simp only [List.mem_map] at hr <;>
    obtain ⟨r0, hr0, rfl⟩ := hr
  · simp [hwf r0 hr0]
  · simp [hwf r0 hr0]

/-- The derived column of a successful `assignConcat`: for every row the new
cell is the source cell with the fixed text prepended, and the source cell is
never `NaN`. -/
theorem assignConcat_cell_new {df out : DataFrame}
    {newCol srcCol pre : String} (hwf : wfDF df)
    (h : assignConcat df newCol srcCol pre = .ok out) (i : Nat)
    (hi : i < df.rows.length) :
    (cellAt df i srcCol).isSome = true ∧
      cellAt out i newCol = (cellAt df i srcCol).map (fun s => pre ++ s) := by
  obtain ⟨j, hj, hall, hcase⟩ := assignConcat_cases h
  have hr : df.rows[i]? = some df.rows[i] := List.getElem?_eq_getElem hi
  set r := df.rows[i] with hrdef
  have hrmem : r ∈ df.rows := List.getElem?_mem hr
  have hrlen : r.length = df.cols.length := hwf r hrmem
  have hsrc : cellAt df i srcCol = r[j]?.getD none := by
    simp [cellAt, hj, hr]
  have hsome : (r[j]?.getD none).isSome = true :=
    List.all_eq_true.1 hall r hrmem
  refine ⟨by rw [hsrc]; exact hsome, ?_⟩
  rcases hcase with ⟨k, hk, rfl⟩ | ⟨hk, rfl⟩
  · have hklt : k < r.length := hrlen ▸ idxOfStr_lt hk
    have hrow : (df.rows.map (fun r =>
        r.set k ((r[j]?.getD none).map (fun s => pre ++ s))))[i]? =
        some (r.set k ((r[j]?.getD none).map (fun s => pre ++ s))) := by
      rw [List.getElem?_map, hr]
      rfl
    have hcell := List.getElem?_set_eq_of_lt
      ((r[j]?.getD none).map (fun s => pre ++ s)) hklt
    rw [hsrc]
    simp [cellAt, hk, hrow, hcell]
  · have hidx : idxOfStr (df.cols ++ [newCol]) newCol =
        some df.cols.length := by
      rw [idxOfStr_append_none hk]
      simp [idxOfStr]
    have hrow : (df.rows.map (fun r =>
        r ++ [(r[j]?.getD none).map (fun s => pre ++ s)]))[i]? =
        some (r ++ [(r[j]?.getD none).map (fun s => pre ++ s)]) := by
      rw [List.getElem?_map, hr]
      rfl
    have hcell : (r ++ [(r[j]?.getD none).map (fun s => pre ++ s)])[
        df.cols.length]? =
        some ((r[j]?.getD none).map (fun s => pre ++ s)) := by
      rw [← hrlen]
      exact List.getElem?_concat_length r _
    rw [hsrc]
    simp [cellAt, hidx, hrow, hcell]

/-- A successful `assignConcat` leaves every other column's cells alone. -/
theorem assignConcat_cell_ne {df out : DataFrame}
    {newCol srcCol pre c : String} (hwf : wfDF df)
    (h : assignConcat df newCol srcCol pre = .ok out) (hne : c ≠ newCol)
    (i : Nat) : cellAt out i c = cellAt df i c := by
  obtain ⟨j, hj, hall, hcase⟩ := assignConcat_cases h
  cases hr : df.rows[i]? with
  | none =>
    rcases hcase with ⟨k, hk, rfl⟩ | ⟨hk, rfl⟩
    · have hout : (df.rows.map (fun r =>
          r.set k ((r[j]?.getD none).map (fun s => pre ++ s))))[i]? =
          none := by
        rw [List.getElem?_map, hr]
        rfl
      simp only [cellAt, hout, hr]
    · have hout : (df.rows.map (fun r =>
          r ++ [(r[j]?.getD none).map (fun s => pre ++ s)]))[i]? =
          none := by
        rw [List.getElem?_map, hr]
        rfl
      simp only [cellAt, hout, hr]
      cases idxOfStr (df.cols ++ [newCol]) c <;>
        cases idxOfStr df.cols c <;> rfl
  | some r =>
    have hrmem : r ∈ df.rows := List.getElem?_mem hr
    have hrlen : r.length = df.cols.length := hwf r hrmem
    rcases hcase with ⟨k, hk, rfl⟩ | ⟨hk, rfl⟩
    · have hrow : (df.rows.map (fun r =>
          r.set k ((r[j]?.getD none).map (fun s => pre ++ s))))[i]? =
          some (r.set k ((r[j]?.getD none).map (fun s => pre ++ s))) := by
        rw [List.getElem?_map, hr]
        rfl
      cases hjc : idxOfStr df.cols c with
      | none => simp [cellAt, hjc, hrow, hr]
      | some j' =>
        have hj'k : j' ≠ k := by
          intro hrfl
          subst hrfl
          have h1 := idxOfStr_some hjc
          have h2 := idxOfStr_some hk
          rw [h1] at h2
          exact hne (Option.some.inj h2)
        have hcell := List.getElem?_set_ne
          (l := r) (a := (r[j]?.getD none).map (fun s => pre ++ s))
          (Ne.symm hj'k)
        simp [cellAt, hjc, hrow, hr, hcell]
    · have hrow : (df.rows.map (fun r =>
          r ++ [(r[j]?.getD none).map (fun s => pre ++ s)]))[i]? =
          some (r ++ [(r[j]?.getD none).map (fun s => pre ++ s)]) := by
        rw [List.getElem?_map, hr]
        rfl
      cases hjc : idxOfStr df.cols c with
      | none =>
        have hidx : idxOfStr (df.cols ++ [newCol]) c = none := by
          rw [idxOfStr_append_none hjc]
          simp [idxOfStr, Ne.symm hne]
        simp [cellAt, hidx, hjc, hrow, hr]
      | some j' =>
        have hidx : idxOfStr (df.cols ++ [newCol]) c = some j' :=
          idxOfStr_append_left hjc
        have hj'lt : j' < r.length := hrlen ▸ idxOfStr_lt hjc
        have hcell : (r ++ [(r[j]?.getD none).map (fun s => pre ++ s)])[j']? =
            r[j']? := List.getElem?_append_left hj'lt
        simp [cellAt, hidx, hjc, hrow, hr, hcell]

/-- Case analysis of a successful `select`. -/
theorem select_cases {df out : DataFrame} {names : List String}
    (h : select df names = .ok out) :
    names.all (fun c => (idxOfStr df.cols c).isSome) = true ∧
      out = ⟨names, df.rows.map (fun r =>
        names.map (fun c =>
          match idxOfStr df.cols c with
          | some j => r[j]?.getD none
          | none => none))⟩ := by
  unfold select at h
  split at h
  · rename_i hall
    exact ⟨hall, (Except.ok.inj h).symm⟩
  · exact absurd h (by simp)

theorem select_cols {df out : DataFrame} {names : List String}
    (h : select df names = .ok out) : out.cols = names := by
  obtain ⟨-, rfl⟩ := select_cases h
  rfl

theorem select_rows_length {df out : DataFrame} {names : List String}
    (h : select df names = .ok out) : out.rows.length = df.rows.length := by
  obtain ⟨-, rfl⟩ := select_cases h
  simp

theorem select_row_lengths {df out : DataFrame} {names : List String}
    (h : select df names = .ok out) :
    ∀ r ∈ out.rows, r.length = names.length := by
  obtain ⟨-, rfl⟩ := select_cases h
  intro r hr
  simp only [List.mem_map] at hr
  obtain ⟨r0, -, rfl⟩ := hr
  simp

/-- `df[names]` is a pure projection: every selected cell equals the cell of
the same row and label in the source frame. -/
theorem select_cell {df out : DataFrame} {names : List String} {c : String}
    (h : select df names = .ok out) (hc : c ∈ names) (i : Nat) :
    cellAt out i c = cellAt df i c := by
  obtain ⟨-, rfl⟩ := select_cases h
  obtain ⟨m, hm⟩ := idxOfStr_of_mem hc
  have hnm : names[m]? = some c := idxOfStr_some hm
  cases hr : df.rows[i]? with
  | none =>
    have hout : (df.rows.map (fun r =>
        names.map (fun c =>
          match idxOfStr df.cols c with
          | some j => r[j]?.getD none
          | none => none)))[i]? = none := by
      rw [List.getElem?_map, hr]
      rfl
    simp only [cellAt, hout, hr]
    cases idxOfStr names c <;> cases idxOfStr df.cols c <;> rfl
  | some r =>
    have hrow : (df.rows.map (fun r =>
        names.map (fun c =>
          match idxOfStr df.cols c with
          | some j => r[j]?.getD none
          | none => none)))[i]? =
        some (names.map (fun c =>
          match idxOfStr df.cols c with
          | some j => r[j]?.getD none
          | none => none)) := by
      rw [List.getElem?_map, hr]
      rfl
    have hcell : (names.map (fun c =>
        match idxOfStr df.cols c with
        | some j => r[j]?.getD none
        | none => none))[m]? =
        some (match idxOfStr df.cols c with
          | some j => r[j]?.getD none
          | none => none) := by
      rw [List.getElem?_map, hnm]
      rfl
    simp only [cellAt, hm, hrow, hcell, Option.getD_some, hr]
    cases idxOfStr df.cols c <;> rfl

/-! ### Lemmas about `data_to_df` as a whole -/

/-- `data_to_df` on a dict with an `items` key, unfolded one step. -/
theorem data_to_df_some_eq (items : List Item) :
    data_to_df (some items) =
      match assignConcat (rename renameMap (json_normalize items))
          "video_url" "video_id" videoUrlBase with
      | .error e => .error e
      | .ok df2 =>
        match assignConcat df2 "channel_url" "channel_id" channelUrlBase with
        | .error e => .error e
        | .ok df3 =>
          match select df3 exportCols with
          | .error e => .error e
          | .ok csv => .ok (df3, csv) := rfl

/-- Decomposition of a successful `data_to_df` into its three stages. -/
theorem data_to_df_parts {items : List Item} {df csv : DataFrame}
    (h : data_to_df (some items) = .ok (df, csv)) :
    ∃ df2,
      assignConcat (rename renameMap (json_normalize items)) "video_url"
          "video_id" videoUrlBase = .ok df2 ∧
        assignConcat df2 "channel_url" "channel_id" channelUrlBase =
          .ok df ∧
        select df exportCols = .ok csv := by
  rw [data_to_df_some_eq] at h
  split at h
  · exact absurd h (by simp)
  · rename_i df2 h2
    split at h
    · exact absurd h (by simp)
    · rename_i df3 h3
      split at h
      · exact absurd h (by simp)
      · rename_i csv2 h4
        have hpair := Except.ok.inj h
        rw [Prod.mk.injEq] at hpair
        obtain ⟨rfl, rfl⟩ := hpair
        exact ⟨df2, h2, h3, h4⟩

theorem data_to_df_wf {items : List Item} {df csv : DataFrame}
    (h : data_to_df (some items) = .ok (df, csv)) : wfDF df := by
  obtain ⟨df2, h2, h3, -⟩ := data_to_df_parts h
  exact assignConcat_wf
    (assignConcat_wf (wf_rename _ (wf_json_normalize items)) h2) h3

theorem data_to_df_df_length {items : List Item} {df csv : DataFrame}
    (h : data_to_df (some items) = .ok (df, csv)) :
    df.rows.length = items.length := by
  obtain ⟨df2, h2, h3, -⟩ := data_to_df_parts h
  rw [assignConcat_rows_length h3, assignConcat_rows_length h2]
  exact json_normalize_rows_length items

theorem data_to_df_csv_length {items : List Item} {df csv : DataFrame}
    (h : data_to_df (some items) = .ok (df, csv)) :
    csv.rows.length = df.rows.length := by
  obtain ⟨df2, -, -, h4⟩ := data_to_df_parts h
  exact select_rows_length h4

theorem data_to_df_csv_cols {data : RawData} {df csv : DataFrame}
    (h : data_to_df data = .ok (df, csv)) : csv.cols = exportCols := by
  cases data with
  | none => exact absurd h (by simp [data_to_df])
  | some items =>
    obtain ⟨df2, -, -, h4⟩ := data_to_df_parts h
    exact select_cols h4

/-- Only the `id.videoId` column (or a literal `video_id` key) can produce
the `video_id` column the URL derivation reads. -/
theorem renameMap_eq_video_id {c : String} (h : renameMap c = "video_id") :
    c = "id.videoId" ∨ c = "video_id" := by
  unfold renameMap at h
  split_ifs at h with h1 h2 h3 h4 h5 h6
  · exact Or.inl h1
  · exact absurd h (by decide)
  · exact absurd h (by decide)
  · exact absurd h (by decide)
  · exact absurd h (by decide)
  · exact absurd h (by decide)
  · exact Or.inr h

/-- When no item carries an `id.videoId` (or literal `video_id`) key, the
URL derivation raises `KeyError: video_id`. -/
theorem data_to_df_no_video_id {items : List Item}
    (hno : ∀ it ∈ items, "id.videoId" ∉ keys it ∧ "video_id" ∉ keys it) :
    data_to_df (some items) = .error "KeyError: video_id" := by
  have hmem : "video_id" ∉ (unionKeys items).map renameMap := by
    intro hmem
    obtain ⟨c, hc, hcr⟩ := List.mem_map.1 hmem
    obtain ⟨it, hit, hck⟩ := mem_unionKeys.1 hc
    rcases renameMap_eq_video_id hcr with rfl | rfl
    · exact (hno it hit).1 hck
    · exact (hno it hit).2 hck
  have hidx : idxOfStr (rename renameMap (json_normalize items)).cols
      "video_id" = none := by
    apply idxOfStr_eq_none_of_not_mem
    simpa [rename, json_normalize] using hmem
  have hass : assignConcat (rename renameMap (json_normalize items))
      "video_url" "video_id" videoUrlBase =
      .error ("KeyError: " ++ "video_id") := by
    unfold assignConcat
    rw [hidx]
  rw [data_to_df_some_eq, hass]
  exact congrArg Except.error (by decide)

/-- The `Max Results` widget never yields a value outside `[5, 50]`. -/
theorem number_input_bounds (entry : Option Int) :
    5 ≤ number_input 5 50 50 entry ∧ number_input 5 50 50 entry ≤ 50 := by
  cases entry with
  | none => exact ⟨by decide, by decide⟩
  | some v =>
    constructor
    · show (5 : Int) ≤ max 5 (min 50 v)
      exact le_max_left _ _
    · show max 5 (min 50 v) ≤ 50
      exact max_le (by decide) (min_le_left _ _)

/-! ### The claims -/

/-- C1: for every VideoRecord produced by the transformer, the derived
`video_url` cell equals `"https://www.youtube.com/watch?v=" ++ video_id`
and the derived `channel_url` cell equals
`"https://www.youtube.com/channel/" ++ channel_id` of the same row. -/
theorem c1_derived_urls {data : RawData} {df csv : DataFrame}
    (h : data_to_df data = .ok (df, csv)) (i : Nat)
    (hi : i < df.rows.length) :
    ∃ v w, cellAt df i "video_id" = some v ∧
      cellAt df i "video_url" = some (videoUrlBase ++ v) ∧
      cellAt df i "channel_id" = some w ∧
      cellAt df i "channel_url" = some (channelUrlBase ++ w) := by
  cases data with
  | none => exact absurd h (by simp [data_to_df])
  | some items =>
    obtain ⟨df2, h2, h3, h4⟩ := data_to_df_parts h
    have hwf1 : wfDF (rename renameMap (json_normalize items)) :=
      wf_rename _ (wf_json_normalize items)
    have hwf2 : wfDF df2 := assignConcat_wf hwf1 h2
    have hlen3 : df.rows.length = df2.rows.length :=
      assignConcat_rows_length h3
    have hlen2 : df2.rows.length =
        (rename renameMap (json_normalize items)).rows.length :=
      assignConcat_rows_length h2
    have hi2 : i < df2.rows.length := hlen3 ▸ hi
    have hi1 : i < (rename renameMap (json_normalize items)).rows.length :=
      hlen2 ▸ hi2
    obtain ⟨hvsome, hvurl⟩ := assignConcat_cell_new hwf1 h2 i hi1
    obtain ⟨hwsome, hwurl⟩ := assignConcat_cell_new hwf2 h3 i hi2
    have t1 : cellAt df i "video_url" = cellAt df2 i "video_url" :=
      assignConcat_cell_ne hwf2 h3 (by decide) i
    have t2 : cellAt df i "video_id" = cellAt df2 i "video_id" :=
      assignConcat_cell_ne hwf2 h3 (by decide) i
    have t3 : cellAt df2 i "video_id" =
        cellAt (rename renameMap (json_normalize items)) i "video_id" :=
      assignConcat_cell_ne hwf1 h2 (by decide) i
    have t4 : cellAt df i "channel_id" = cellAt df2 i "channel_id" :=
      assignConcat_cell_ne hwf2 h3 (by decide) i
    obtain ⟨v, hv⟩ := Option.isSome_iff_exists.1 hvsome
    obtain ⟨w, hw⟩ := Option.isSome_iff_exists.1 hwsome
    refine ⟨v, w, ?_, ?_, ?_, ?_⟩
    · rw [t2, t3, hv]
    · rw [t1, hvurl, hv]
      rfl
    · rw [t4, hw]
    · rw [hwurl, hw]
      rfl

/-- C1 witness: the theorem instantiated on `demoItems` at row 0. -/
theorem c1_derived_urls_witness :
    cellAt demoDf 0 "video_url" = some (videoUrlBase ++ "abc") ∧
      cellAt demoDf 0 "channel_url" = some (channelUrlBase ++ "ch1") := by
  have heq : data_to_df (some demoItems) = .ok (demoDf, demoCsv) := rfl
  obtain ⟨v, w, hv, hvu, hw, hwu⟩ := c1_derived_urls heq 0 (by decide)
  have hv2 : v = "abc" := by
    have hs : some v = some "abc" := by
      rw [← hv]
      rfl
    exact Option.some.inj hs
  have hw2 : w = "ch1" := by
    have hs : some w = some "ch1" := by
      rw [← hw]
      rfl
    exact Option.some.inj hs
  subst hv2
  subst hw2
  exact ⟨hvu, hwu⟩

/-- C2 counterexample: on a response with zero items (`items == []`) the
transformer does not return a six-column projection — the URL derivation
raises `KeyError: video_id` on the empty frame. -/
theorem c2_empty_items_counterexample :
    data_to_df (some ([] : List Item)) = .error "KeyError: video_id" := rfl

/-- C2 (amended): whenever the transformer returns at all, the export
projection has exactly the six named columns in stable order; on an empty
items sequence it raises instead of returning a projection. -/
theorem c2_export_columns {data : RawData} {df csv : DataFrame}
    (h : data_to_df data = .ok (df, csv)) : csv.cols = exportCols :=
  data_to_df_csv_cols h

/-- C2 witness: the projection of `demoItems` carries the six columns. -/
theorem c2_export_columns_witness : demoCsv.cols = exportCols := by
  have heq : data_to_df (some demoItems) = .ok (demoDf, demoCsv) := rfl
  exact c2_export_columns heq

/-- C3 counterexample: a 403 response with a well-formed JSON body is
returned by `get_videos` as a success — the status code is never inspected —
and the pipeline proceeds into `data_to_df`, which then fails on the missing
`items` key rather than on any fetch-failed condition. -/
theorem c3_non2xx_counterexample :
    get_videos_result (.resp 403 (some none)) = .ok none ∧
      run_pipeline (.resp 403 (some none)) = .error "KeyError: items" :=
  ⟨rfl, rfl⟩

/-- C3 (amended): a raised network exception or a JSON parse failure
propagates out of the fetch, so the transform stage never runs on those; but
any response whose body parses — whatever its HTTP status — flows straight
into `data_to_df` with no fetch-failed report. -/
theorem c3_fetch_errors :
    run_pipeline .netFail = .error "requests.ConnectionError" ∧
      (∀ s : Nat, run_pipeline (.resp s none) = .error "JSONDecodeError") ∧
      (∀ (s : Nat) (d : RawData),
        run_pipeline (.resp s (some d)) = data_to_df d) :=
  ⟨rfl, fun _ => rfl, fun _ _ => rfl⟩

/-- C4 counterexample: an item lacking `snippet.description` (a sub-field
the other item supplies) is flattened with `NaN` and the transformer
returns both tables silently — row 1 of the projection carries an empty
description cell instead of any structural failure. -/
theorem c4_missing_subfield_counterexample :
    data_to_df (some c4BadItems) = .ok (c4BadDf, c4BadCsv) ∧
      cellAt c4BadCsv 1 "description" = none ∧
      c4BadCsv.rows.length = 2 :=
  ⟨rfl, rfl, rfl⟩

/-- C4 (amended): a dict without the `items` key raises `KeyError: items`,
and when no item carries an `id.videoId` (or literal `video_id`) field the
URL derivation raises `KeyError: video_id`; but a descriptive sub-field
missing from only some items becomes a silent `NaN` cell instead of a
failure. -/
theorem c4_structural_failure :
    data_to_df none = .error "KeyError: items" ∧
      ∀ items : List Item,
        (∀ it ∈ items, "id.videoId" ∉ keys it ∧ "video_id" ∉ keys it) →
          data_to_df (some items) = .error "KeyError: video_id" :=
  ⟨rfl, fun _ hno => data_to_df_no_video_id hno⟩

/-- C4 witness: a single item carrying only a title triggers the failure. -/
theorem c4_structural_failure_witness :
    data_to_df (some [[("snippet.title", "t")]]) =
      .error "KeyError: video_id" :=
  c4_structural_failure.2 [[("snippet.title", "t")]] (by decide)

/-- C5 (amended): the download is the UTF-8 bytes of `df.to_csv()` of the
export projection under filename `content_data.csv` and MIME `text/csv`;
`to_csv` keeps the default pandas index, so the header line carries a
leading empty label before the six column names and each of the
one-per-record lines is prefixed by its row index. -/
theorem c5_csv_download {data : RawData} {df csv : DataFrame}
    (h : data_to_df data = .ok (df, csv)) :
    download_button csv =
      { data := to_csv csv, file_name := "content_data.csv",
        mime := "text/csv" } ∧
      df_to_csv csv = String.intercalate "\n"
        ((",publish_date,video_url,title,description,channel_name,"
            ++ "channel_url")
          :: csv.rows.enum.map csvLine) ++ "\n" ∧
      (csv.rows.enum.map csvLine).length = csv.rows.length ∧
      ∀ r ∈ csv.rows, r.length = 6 := by
  have hcols : csv.cols = exportCols := data_to_df_csv_cols h
  refine ⟨rfl, ?_, by simp, ?_⟩
  · unfold df_to_csv
    rw [hcols]
    have hhead : String.intercalate "," ("" :: exportCols.map csvField) =
        ",publish_date,video_url,title,description,channel_name,"
          ++ "channel_url" := by decide
    rw [hhead]
  · cases data with
    | none => exact absurd h (by simp [data_to_df])
    | some items =>
      obtain ⟨df2, -, -, h4⟩ := data_to_df_parts h
      intro r hr
      simpa using select_row_lengths h4 r hr

/-- C5 witness: the theorem instantiated on the `c5Items` projection. -/
theorem c5_csv_download_witness :
    df_to_csv c5Csv = String.intercalate "\n"
      ((",publish_date,video_url,title,description,channel_name,"
          ++ "channel_url")
        :: c5Csv.rows.enum.map csvLine) ++ "\n" ∧
      (download_button c5Csv).file_name = "content_data.csv" := by
  have heq : data_to_df (some c5Items) = .ok (c5Df, c5Csv) := rfl
  obtain ⟨h1, h2, -, -⟩ := c5_csv_download heq
  exact ⟨h2, by rw [h1]⟩

/-- C5 counterexample: the concrete CSV text for one record — the header
line is not the six column names joined by commas: the pandas index adds a
leading empty field, and the record line starts with its row index. -/
theorem c5_index_column_counterexample :
    data_to_df (some c5Items) = .ok (c5Df, c5Csv) ∧
      df_to_csv c5Csv =
        (",publish_date,video_url,title,description,channel_name,channel_url"
          ++ "\n0,p1,https://www.youtube.com/watch?v=abc,t1,d1,cn1,"
          ++ "https://www.youtube.com/channel/ch1\n") ∧
      (df_to_csv c5Csv).data.takeWhile (fun ch => ch != '\n') ≠
        (String.intercalate "," exportCols).data :=
  ⟨rfl, by decide, by decide⟩

/-- C6: the `Max Results` value sent in the fetch is always within
`[5, 50]` — the widget clamps out-of-range entry before the GET — and it is
exactly the `maxResults` query parameter of the submitted request. -/
theorem c6_max_results_bounds (apiKey : String) (f : FormInput) :
    5 ≤ formMaxResults f ∧ formMaxResults f ≤ 50 ∧
      ("maxResults", toString (formMaxResults f)) ∈
        (submit_request apiKey f).params := by
  obtain ⟨h1, h2⟩ := number_input_bounds f.maxResultsEntry
  exact ⟨h1, h2, by simp [submit_request, get_videos_request]⟩

/-- C7: the `publishedAfter` parameter is the start date's ISO day with the
start-of-day suffix `T00:00:00Z`, and `publishedBefore` the end date's ISO
day with the end-of-day suffix `T23:59:59Z`. -/
theorem c7_published_instants (apiKey : String) (f : FormInput) :
    ("publishedAfter", f.startDate.isoformat ++ "T00:00:00Z") ∈
        (submit_request apiKey f).params ∧
      ("publishedBefore", f.endDate.isoformat ++ "T23:59:59Z") ∈
        (submit_request apiKey f).params := by
  constructor <;>
    simp [submit_request, get_videos_request, startIso, endIso]

/-- C8: the transformer emits exactly one row per fetched item, so when the
provider honours the requested bound the output row count is at most
`maxResults`. -/
theorem c8_row_count_bound {items : List Item} {df csv : DataFrame}
    (h : data_to_df (some items) = .ok (df, csv)) (maxResults : Nat)
    (hprov : items.length ≤ maxResults) :
    df.rows.length = items.length ∧ csv.rows.length = items.length ∧
      df.rows.length ≤ maxResults ∧ csv.rows.length ≤ maxResults := by
  have h1 := data_to_df_df_length h
  have h2 := data_to_df_csv_length h
  refine ⟨h1, h2.trans h1, ?_, ?_⟩
  · rw [h1]
    exact hprov
  · rw [h2, h1]
    exact hprov

/-- C8 witness: the theorem instantiated on `demoItems` with bound 5. -/
theorem c8_row_count_bound_witness :
    demoDf.rows.length = demoItems.length ∧ demoDf.rows.length ≤ 5 := by
  have heq : data_to_df (some demoItems) = .ok (demoDf, demoCsv) := rfl
  obtain ⟨h1, -, h3, -⟩ := c8_row_count_bound heq 5 (by decide)
  exact ⟨h1, h3⟩

/-- C9: one submission issues exactly one GET to the video-search endpoint,
whose query parameters are exactly the eight listed pairs in dict order —
the secret key, `q`, the fixed `part=snippet` and `type=video`, the bounded
`maxResults`, an order drawn from the selectbox enum, and the two published
instants — and no other request. -/
theorem c9_single_request_shape (apiKey : String) (f : FormInput) :
    requests_issued apiKey f = [submit_request apiKey f] ∧
      (requests_issued apiKey f).length = 1 ∧
      (submit_request apiKey f).url =
        "https://www.googleapis.com/youtube/v3/search" ∧
      (submit_request apiKey f).params =
        [("key", apiKey), ("q", f.queryText), ("part", "snippet"),
         ("type", "video"), ("maxResults", toString (formMaxResults f)),
         ("order", formOrder f), ("publishedAfter", startIso f),
         ("publishedBefore", endIso f)] ∧
      formOrder f ∈ orderOptions := by
  refine ⟨rfl, rfl, rfl, rfl, ?_⟩
  unfold formOrder selectbox
  cases hx : orderOptions[f.orderChoice]? with
  | some x => exact List.getElem?_mem hx
  | none => decide

/-- C10: the projection is a pure column selection of the full table — the
same number of rows (one per item, order preserved), the six export columns
in order, and every projected cell equal to the full table's cell at the
same row and label; and each flattened row is computed from the item at the
same index alone. -/
theorem c10_projection_preserves {items : List Item} {df csv : DataFrame}
    (h : data_to_df (some items) = .ok (df, csv)) :
    csv.cols = exportCols ∧ df.rows.length = items.length ∧
      csv.rows.length = df.rows.length ∧
      (∀ i : Nat, ∀ c ∈ exportCols, cellAt csv i c = cellAt df i c) ∧
      (∀ (i : Nat) (c : String),
        cellAt (json_normalize items) i c = items[i]?.bind (lookupKey c)) := by
  obtain ⟨df2, h2, h3, h4⟩ := data_to_df_parts h
  refine ⟨select_cols h4, data_to_df_df_length h, select_rows_length h4,
    ?_, fun i c => cellAt_json_normalize items i c⟩
  intro i c hc
  exact select_cell h4 hc i

/-- C10 witness: the theorem instantiated on `demoItems`. -/
theorem c10_projection_preserves_witness :
    demoCsv.rows.length = demoDf.rows.length ∧
      cellAt demoCsv 1 "title" = cellAt demoDf 1 "title" := by
  have heq : data_to_df (some demoItems) = .ok (demoDf, demoCsv) := rfl
  obtain ⟨-, -, h3, h4, -⟩ := c10_projection_preserves heq
  exact ⟨h3, h4 1 "title" (by decide)⟩

end StreamlitTV
